import Mathlib

/-!
Shallow embedding of the STIX telemetry-rate estimator (`tmrates.py`) and the
product size catalog (`quicklook_tm_sizes.py`, `bulk_science.py`).

All bit counts are carried in `ℚ`: two of the quicklook formulas contain
Python float literals (`1.` in `background`, `8.` in `variance`), so the
values flowing through the source are a mix of ints and floats; every value
that actually occurs is an exactly representable small rational, so rational
arithmetic coincides with the source's float arithmetic on all inputs
considered here.

Python's `divmod(a, b)` on ints and on exactly-representable floats is
floor division with remainder: `(⌊a/b⌋, a - ⌊a/b⌋*b)`; it raises
`ZeroDivisionError` when `b = 0`.  `float.is_integer` holds exactly when the
value equals its floor.  Exceptions are modelled by `Except`.
-/

/-- Unit and service header of `PACKET_DEF` (`tmrates.py` line 8). -/
def PACKET_DEF_header : ℚ := 6 * 8

/-- Data-field header of `PACKET_DEF` (`tmrates.py` line 9). -/
def PACKET_DEF_data_header : ℚ := 10 * 8

/-- Maximum data payload of `PACKET_DEF` (`tmrates.py` line 10): 4096 bytes. -/
def PACKET_DEF_data : ℚ := 4096 * 8

/-- Python `divmod` on rationals: floor quotient and remainder with the sign
of the divisor.  The source applies it at `tmrates.py` line 23.  Only used
under a guard that the divisor is nonzero (Python raises otherwise). -/
def pyDivmod (a b : ℚ) : ℚ × ℚ :=
  (((⌊a / b⌋ : ℤ) : ℚ), a - ((⌊a / b⌋ : ℤ) : ℚ) * b)

/-- Python `float.is_integer`: the value equals its floor
(`tmrates.py` line 16). -/
def is_integer (q : ℚ) : Prop := q = ((⌊q⌋ : ℤ) : ℚ)

instance (q : ℚ) : Decidable (is_integer q) :=
  inferInstanceAs (Decidable (q = _))

/-! ## Product size catalog: quicklook products (`quicklook_tm_sizes.py`) -/

/-- QL light curves (`quicklook_tm_sizes.py` lines 22-68). -/
def light_curve (num_energies num_samples : ℚ) : ℚ × ℚ :=
  ( 1*8        -- SSID
    + 4*8      -- SCET Coarse time
    + 2*8      -- SCET Fine time
    + 2*8      -- Integration time
    + 4*8      -- Detector mask
    + 4        -- spare
    + 12       -- Pixel mask
    + 1        -- spare
    + 1 + 3 + 3  -- Comp Schema light curve S, K, M
    + 1 + 3 + 3  -- Comp Schema trigger S, K, M
    + 1        -- Energy bin mask upper boundary
    + 4*8      -- Energy bin mask lower boundary
    + 1*8      -- Number of energies
    + num_energies*2*8  -- Number data points
    + 2*8      -- Number of data points
    + 2*8,     -- Number of data point
    num_energies*num_samples*8  -- Compressed light curves
    + num_samples*8             -- Compressed triggers
    + num_samples*8 )           -- RCR

/-- QL background (`quicklook_tm_sizes.py` lines 71-111); the `1.` spare term
is a Python float literal, making the fixed size a float of integer value. -/
def background (num_energies num_samples : ℚ) : ℚ × ℚ :=
  ( 1*8        -- SSID
    + 4*8      -- SCET Coarse time
    + 2*8      -- SCET Fine time
    + 2*8      -- Integration time
    + 1 + 3 + 3  -- Comp Schema background S, K, M
    + 1 + 3 + 3  -- Comp Schema trigger S, K, M
    + 1        -- Energy bin mask upper boundary
    + 4*8      -- Energy bin mask lower boundary
    + 1        -- Spare (float literal 1. in the source)
    + 1*8      -- Number of energies
    + num_energies*2*8  -- Number data points
    + 2*8,     -- Number of data points
    num_energies*num_samples*8  -- Compressed background
    + num_samples*8 )           -- Compressed triggers

/-- QL variance (`quicklook_tm_sizes.py` lines 113-150); the variable term
uses the float literal `8.`. -/
def variance (num_energies num_samples : ℚ) : ℚ × ℚ :=
  ( 1*8        -- SSID
    + 4*8      -- SCET Coarse time
    + 2*8      -- SCET Fine time
    + 2*8      -- Integration time
    + 1*8      -- Samples per variance
    + 4*8      -- Detector mask
    + 4*8      -- Energy mask
    + 4        -- Spare
    + 12       -- Pixel mask
    + 1        -- Spare
    + 1 + 3 + 3  -- Comp Schema variance S, K, M
    + 2*8,     -- Number of data points
    num_samples*1*8 )  -- Number data points (float literal 8. in the source)

/-- QL spectra (`quicklook_tm_sizes.py` lines 152-195). -/
def spectra (num_energies num_samples : ℚ) : ℚ × ℚ :=
  ( 1*8        -- SSID
    + 4*8      -- SCET Coarse time
    + 2*8      -- SCET Fine time
    + 2*8      -- Integration time
    + 1        -- Spare
    + 1 + 3 + 3  -- Comp Schema spectra S, k, M
    + 1        -- Spare
    + 1 + 3 + 3  -- Comp Schema trigger S, K, M
    + 4        -- Spare
    + 12       -- Pixel mask
    + 2*8,     -- Number of data samples
    num_samples * (
      1*8      -- Detector index
      + 32*8   -- Spectrum x 32
      + 1*8    -- Trigger
      + 1*8 )) -- Number of integrations

/-- QL flare flag and location (`quicklook_tm_sizes.py` lines 197-230). -/
def flare_flag_location (num_energies num_samples : ℚ) : ℚ × ℚ :=
  ( 1*8        -- SSID
    + 4*8      -- SCET Coarse time
    + 2*8      -- SCET Fine time
    + 2*8      -- Integration time
    + 2*8,     -- Number of data samples
    num_samples * (
      1*8      -- Flare
      + 1*8    -- Flare location z (arcmin)
      + 1*8 )) -- Flare location y (arcmin)

/-- QL TM management and flare list (`quicklook_tm_sizes.py` lines 232-266);
the first parameter is ignored (named `_` in the source). -/
def flarelist_tm_mgmt (_ : ℚ) (num_samples : ℚ) : ℚ × ℚ :=
  ( 1*8        -- SSID
    + 4*8      -- UBSD counter
    + 4*8      -- PALD counter
    + 2*8,     -- Number of flares
    num_samples * (
      4*8      -- Start time
      + 4*8    -- End time
      + 1*8    -- highest flare flag
      + 4*8    -- TM byte volume
      + 1*8    -- Avg z location
      + 1*8    -- Avg Y location
      + 1*8 )) -- Processing status

/-- QL energy calibration spectra (`quicklook_tm_sizes.py` lines 268-322). -/
def calibration_spectra (num_energies num_samples : ℚ) : ℚ × ℚ :=
  ( 1*8        -- SSID
    + 4*8      -- SCET Coarse time
    + 4*8      -- Duration
    + 2*8      -- Quiet time
    + 4*4      -- Live time
    + 2*8      -- Avg Temperature
    + 1        -- Spare
    + 1 + 3 + 3  -- Comp Schema accum S, K, M
    + 4*8      -- Detector mask
    + 4        -- Spare
    + 12       -- Pixel mask
    + 1*8      -- Sub spectrum mask
    + 2        -- Spare
    + 8*(      -- 8 x
        2       -- Spare
        + 10    -- Number of spectral points
        + 10    -- Number of summed channels in spectral point
        + 10 )  -- Lowest channel in sub spectrum
    + 2*8,     -- Number of structure in packet
    num_samples * (
      4        -- Spare
      + 5      -- Detector ID
      + 4      -- Pixel ID
      + 3      -- Sub spec ID
      + 16     -- Number of compressed spectral points
      + num_energies*1*8 ))  -- Compressed spectral point

/-! ## Product size catalog: bulk science products (`bulk_science.py`)

`bulk_science.py` does not import: `xray_level3` and `aspect` juxtapose two
terms with no operator between them (lines 224-225 and 302-305), which is a
Python SyntaxError, so the module fails to load at all.  Independently,
`xray_level1` refers to the names `num_pixel` and `num_energies`, which are
defined nowhere in the module, so even with the syntax errors repaired every
call to it (and hence to `xray_level2`, and similarly `xray_level3` with its
undefined `num_energies`) would raise `NameError` before producing a pair.
Functions whose calls can never produce a value are modelled as constantly
`none`; the arithmetic written in their bodies is recorded separately in
`*_body` definitions with the unbound names as explicit extra arguments. -/

/-- Common header constant (`bulk_science.py` lines 29-54); defined in the
source but never used by any sizing function (all earlier terms are
commented out, leaving a unary-plus chain). -/
def COMMON_XRAY_USER : ℚ :=
  8          -- SSID (20, 21, 22, 23, 24)
  + 16       -- Reference to user TC packet ID
  + 16       -- Reference to user TC packet sequence control
  + 32       -- Unique data request number
  + 1 + 1 + 3 + 3  -- Spare, Compression Schema Accumulators S, K, M
  + 1 + 1 + 3 + 3  -- Spare, Compression Schema Triggers S, K, M
  + 48       -- SCET of first data sample
  + 16       -- Number of samples N

/-- Level 0 x-ray data (`bulk_science.py` lines 57-100). -/
def xray_level0 (num_samples : ℚ) : ℚ × ℚ :=
  ( 2*8      -- Starting time
    + 1*8    -- RCR
    + 2*8    -- Integration time
    + 4      -- Spare
    + 12     -- Pixel mask
    + 32     -- Detector mask
    + 15*8   -- Trigger accumulators
    + 2*8,   -- Number of samples (M)
    num_samples * (
      4      -- Pixel ID
      + 5    -- Detector Index
      + 5    -- Energy ID
      + 2    -- Continuation Bits
      + 2*8 ))  -- Assume worst case 2 bytes for counts

/-- Arithmetic written in the body of `xray_level1` (`bulk_science.py`
lines 103-149), with the unbound source names `num_pixel` and `num_energies`
as explicit extra arguments.  The source itself never evaluates this: the
two names are undefined, so every call raises `NameError`. -/
def xray_level1_body (num_pixel num_energies : ℚ)
    (num_pixel_sets num_energy_groups num_detector_masks : ℚ) : ℚ × ℚ :=
  ( 2*8      -- Starting time
    + 1*8    -- RCR
    + 1*8    -- Number of pixel sets P
    + num_pixel * (
        4      -- Spare
        + 12 ) -- Pixel mask for set P
    + 32     -- M detector masks
    + 2*8    -- Integration time
    + 15*8   -- Trigger Accumulators
    + 1*8,   -- Number of Energies
    num_energies * (
      3      -- Spare
      + 5    -- E1 low bound
      + 3    -- Spare
      + 5    -- E2 high bound
      + 16   -- Number of data elements
      + num_pixel_sets * num_detector_masks * 8 ))  -- Compressed counts

/-- Level 1 x-ray data (`bulk_science.py` lines 103-149).  Every call raises
`NameError` (`num_pixel` and `num_energies` are undefined in the module), so
no call ever returns a pair: modelled as `none`.  See `xray_level1_body`. -/
def xray_level1 (num_pixel_sets num_energy_groups num_detector_masks : ℚ) :
    Option (ℚ × ℚ) := none

/-- Level 2 x-ray data (`bulk_science.py` lines 151-173): the body is a
single call forwarding all three parameters to `xray_level1`. -/
def xray_level2 (num_pixel_sets num_energy_groups num_detector_masks : ℚ) :
    Option (ℚ × ℚ) :=
  xray_level1 num_pixel_sets num_energy_groups num_detector_masks

/-- Arithmetic written in the body of `xray_level3` (`bulk_science.py`
lines 176-233), reading the missing operator between the `+ 8` term and the
`num_detector_masks * (...)` term (line 224-225, a SyntaxError as written)
as the addition the surrounding sum suggests, and taking the unbound source
name `num_energies` as an explicit extra argument. -/
def xray_level3_body (num_energies : ℚ)
    (num_pixel_sets num_energy_groups num_detector_masks : ℚ) : ℚ × ℚ :=
  ( 2*8      -- Starting time
    + 1*8    -- RCR
    + 1*8    -- Duration
    + 4 + 12 -- Spare, Pixel mask 1
    + 4 + 12 -- Spare, Pixel mask 2
    + 4 + 12 -- Spare, Pixel mask 3
    + 4 + 12 -- Spare, Pixel mask 4
    + 4 + 12 -- Spare, Pixel mask 5
    + 32     -- Detector mask
    + 15*8   -- Trigger Accumulators
    + 1*8,   -- Number of energy groups
    num_energies * (
      3      -- Spare
      + 5    -- E1 low bound
      + 3    -- Spare
      + 5    -- E2 high bound
      + 8    -- Flux
      + 8    -- Number of detectors N
      + num_detector_masks * (
          8     -- Detector ID
          + 8   -- Real visibility component
          + 8 )))  -- Imaginary visibility component

/-- Level 3 x-ray data (`bulk_science.py` lines 176-233).  The body as
written is a SyntaxError (juxtaposed terms at lines 224-225), so the
function can never be evaluated: modelled as `none`. -/
def xray_level3 (num_pixel_sets num_energy_groups num_detector_masks : ℚ) :
    Option (ℚ × ℚ) := none

/-- Spectrogram x-ray data (`bulk_science.py` lines 236-275). -/
def spectrogram (num_samples num_energies : ℚ) : ℚ × ℚ :=
  ( 4        -- Spare
    + 12     -- Pixel mask
    + 4*8    -- Detectors mask
    + 1*8    -- RCR
    + 1      -- Spare
    + 5      -- Emin
    + 5      -- Emax
    + 5      -- E unit
    + 2*8    -- Number of samples N
    + 2*8,   -- Closing time offset
    num_samples * (
      2*8    -- Delta time
      + 1*8  -- Compress combined trigger count
      + 1*8  -- Number of energies M
      + num_energies * 8 ))

/-- Arithmetic written in the body of `aspect` (`bulk_science.py`
lines 278-309), reading the three missing operators between the four
`2*8` diode-voltage terms (lines 302-305, a SyntaxError as written) as the
additions the comments suggest. -/
def aspect_body (num_samples : ℚ) : ℚ × ℚ :=
  ( 1*8      -- SSID
    + 4*8    -- SCET Coarse time
    + 2*8    -- SCET Fine time
    + 1*8    -- Summing value
    + 2*8,   -- Number of samples N
    num_samples * (
      2*8    -- ChA diode 0 voltage
      + 2*8  -- ChA diode 1 voltage
      + 2*8  -- ChB diode 0 voltage
      + 2*8 ))  -- ChB diode 1 voltage

/-- Aspect data (`bulk_science.py` lines 278-309).  The body as written is a
SyntaxError (juxtaposed terms at lines 302-305), so the function can never
be evaluated: modelled as `none`. -/
def aspect (num_samples : ℚ) : Option (ℚ × ℚ) := none

/-! ## Packing and rate estimator (`tmrates.py` lines 13-35) -/

/-- Failure conditions of `calculate_tm_rate`: the explicit `ValueError` of
line 17, and Python's `ZeroDivisionError` (raised by `/` at line 15 when the
integration time is zero, by `divmod` at line 23 when the variable size is
zero, and by `/` at line 26 when `data_per_packet` is zero). -/
inductive TmError where
  | nonDivisibleCadence : TmError
  | zeroDivision : TmError
deriving DecidableEq

/-- `fixed` at `tmrates.py` line 14: the product is queried with one record. -/
def tm_fixed (product : ℚ → ℚ → ℚ × ℚ) (num_energies : ℚ) : ℚ :=
  (product num_energies 1).1

/-- The variable size at `tmrates.py` line 14. -/
def tm_variable (product : ℚ → ℚ → ℚ × ℚ) (num_energies : ℚ) : ℚ :=
  (product num_energies 1).2

/-- `num_data` at `tmrates.py` line 15: records needed per day. -/
def tm_num_data (integration_time : ℚ) : ℚ :=
  24 * 60 * 60 / integration_time

/-- `packet_space` at `tmrates.py` line 20. -/
def tm_packet_space (product : ℚ → ℚ → ℚ × ℚ) (num_energies : ℚ) : ℚ :=
  PACKET_DEF_data - tm_fixed product num_energies

/-- `data_per_packet` at `tmrates.py` line 23: floor quotient of the divmod. -/
def tm_data_per_packet (product : ℚ → ℚ → ℚ × ℚ) (num_energies : ℚ) : ℚ :=
  (pyDivmod (tm_packet_space product num_energies)
    (tm_variable product num_energies)).1

/-- `rem` at `tmrates.py` line 23: remainder of the divmod. -/
def tm_rem (product : ℚ → ℚ → ℚ × ℚ) (num_energies : ℚ) : ℚ :=
  (pyDivmod (tm_packet_space product num_energies)
    (tm_variable product num_energies)).2

/-- `num_packets` at `tmrates.py` line 26: real-valued, not rounded. -/
def tm_num_packets (product : ℚ → ℚ → ℚ × ℚ)
    (num_energies integration_time : ℚ) : ℚ :=
  tm_num_data integration_time / tm_data_per_packet product num_energies

/-- `total_size` at `tmrates.py` line 28. -/
def tm_total (product : ℚ → ℚ → ℚ × ℚ)
    (num_energies integration_time : ℚ) : ℚ :=
  tm_num_packets product num_energies integration_time *
    (tm_fixed product num_energies +
      tm_data_per_packet product num_energies * tm_variable product num_energies)

/-- `calculate_tm_rate` (`tmrates.py` lines 13-35).  The guards model, in
source order, the failure points the interpreter hits: division by a zero
integration time (line 15), the explicit `is_integer` ValueError (lines
16-18), `divmod` by a zero variable size (line 23), and division by a zero
`data_per_packet` (line 26).  No other validation exists in the source. -/
def calculate_tm_rate (product : ℚ → ℚ → ℚ × ℚ)
    (num_energies integration_time : ℚ) : Except TmError ℚ :=
  if integration_time = 0 then .error .zeroDivision
  else if ¬ is_integer (tm_num_data integration_time) then
    .error .nonDivisibleCadence
  else if tm_variable product num_energies = 0 then .error .zeroDivision
  else if tm_data_per_packet product num_energies = 0 then
    .error .zeroDivision
  else .ok (tm_total product num_energies integration_time)

/-! ## Helper lemmas -/

theorem is_integer_intCast (n : ℤ) : is_integer ((n : ℚ)) := by
  simp [is_integer, Int.floor_intCast]

theorem is_integer_of_eq {q : ℚ} (n : ℤ) (h : q = (n : ℚ)) : is_integer q :=
  h ▸ is_integer_intCast n

theorem not_is_integer_of_bounds {q : ℚ} (n : ℤ) (h1 : (n : ℚ) < q)
    (h2 : q < (n : ℚ) + 1) : ¬ is_integer q := by
  intro h
  have hf : ⌊q⌋ = n := Int.floor_eq_iff.mpr ⟨h1.le, h2⟩
  rw [is_integer, hf] at h
  exact h1.ne' h

theorem is_integer_iff (q : ℚ) : is_integer q ↔ ∃ n : ℤ, q = (n : ℚ) :=
  ⟨fun h => ⟨⌊q⌋, h⟩, fun ⟨n, h⟩ => is_integer_of_eq n h⟩

theorem pyDivmod_add (a b : ℚ) : (pyDivmod a b).1 * b + (pyDivmod a b).2 = a := by
  simp [pyDivmod]

theorem pyDivmod_snd_eq (a b : ℚ) (hb : b ≠ 0) :
    (pyDivmod a b).2 = b * Int.fract (a / b) := by
  simp only [pyDivmod, Int.fract]
  field_simp
  ring

theorem pyDivmod_snd_nonneg (a b : ℚ) (hb : 0 < b) : 0 ≤ (pyDivmod a b).2 := by
  rw [pyDivmod_snd_eq a b hb.ne']
  exact mul_nonneg hb.le (Int.fract_nonneg _)

theorem pyDivmod_snd_lt (a b : ℚ) (hb : 0 < b) : (pyDivmod a b).2 < b := by
  rw [pyDivmod_snd_eq a b hb.ne']
  calc b * Int.fract (a / b) < b * 1 :=
        (mul_lt_mul_left hb).mpr (Int.fract_lt_one _)
    _ = b := mul_one b

theorem pyDivmod_snd_nonpos (a b : ℚ) (hb : b < 0) : (pyDivmod a b).2 ≤ 0 := by
  rw [pyDivmod_snd_eq a b hb.ne]
  exact mul_nonpos_of_nonpos_of_nonneg hb.le (Int.fract_nonneg _)

theorem pyDivmod_fst_neg {a b : ℚ} (h : a / b < 0) : (pyDivmod a b).1 < 0 := by
  simp only [pyDivmod]
  have : ⌊a / b⌋ < 0 := by
    by_contra hc
    push_neg at hc
    exact absurd (Int.floor_nonneg.mp hc) (not_le.mpr h)
  exact_mod_cast this

theorem calculate_tm_rate_ok (product : ℚ → ℚ → ℚ × ℚ) (e t : ℚ)
    (ht : t ≠ 0) (h1 : is_integer (tm_num_data t))
    (h2 : tm_variable product e ≠ 0) (h3 : tm_data_per_packet product e ≠ 0) :
    calculate_tm_rate product e t = Except.ok (tm_total product e t) := by
  unfold calculate_tm_rate
  rw [if_neg ht, if_neg (not_not_intro h1), if_neg h2, if_neg h3]

theorem calculate_tm_rate_cadence_error (product : ℚ → ℚ → ℚ × ℚ) (e t : ℚ)
    (h1 : ¬ is_integer (tm_num_data t)) :
    calculate_tm_rate product e t = Except.error TmError.nonDivisibleCadence := by
  have ht : t ≠ 0 := by
    intro h0
    apply h1
    exact is_integer_of_eq 0 (by simp [tm_num_data, h0])
  unfold calculate_tm_rate
  rw [if_neg ht, if_pos h1]

theorem calculate_tm_rate_zero_variable (product : ℚ → ℚ → ℚ × ℚ) (e t : ℚ)
    (ht : t ≠ 0) (h1 : is_integer (tm_num_data t))
    (h2 : tm_variable product e = 0) :
    calculate_tm_rate product e t = Except.error TmError.zeroDivision := by
  unfold calculate_tm_rate
  rw [if_neg ht, if_neg (not_not_intro h1), if_pos h2]

theorem calculate_tm_rate_zero_dpp (product : ℚ → ℚ → ℚ × ℚ) (e t : ℚ)
    (ht : t ≠ 0) (h1 : is_integer (tm_num_data t))
    (h2 : tm_variable product e ≠ 0) (h3 : tm_data_per_packet product e = 0) :
    calculate_tm_rate product e t = Except.error TmError.zeroDivision := by
  unfold calculate_tm_rate
  rw [if_neg ht, if_neg (not_not_intro h1), if_neg h2, if_pos h3]

theorem num_data_4 : is_integer (tm_num_data 4) :=
  is_integer_of_eq 21600 (by norm_num [tm_num_data])

theorem num_data_5 : is_integer (tm_num_data 5) :=
  is_integer_of_eq 17280 (by norm_num [tm_num_data])

theorem num_data_7 : ¬ is_integer (tm_num_data 7) := by
  apply not_is_integer_of_bounds 12342 <;> norm_num [tm_num_data]

theorem tm_variable_light_curve_5 : tm_variable light_curve 5 = 56 := by
  norm_num [tm_variable, light_curve]

theorem tm_data_per_packet_light_curve_5 :
    tm_data_per_packet light_curve 5 = 580 := by
  have hq : tm_packet_space light_curve 5 / tm_variable light_curve 5
      = ((580 : ℤ) : ℚ) := by
    norm_num [tm_packet_space, tm_fixed, tm_variable, light_curve, PACKET_DEF_data]
  rw [tm_data_per_packet, pyDivmod, hq, Int.floor_intCast]
  norm_num

theorem tm_variable_calibration_64 : tm_variable calibration_spectra 64 = 544 := by
  norm_num [tm_variable, calibration_spectra]

theorem tm_data_per_packet_calibration_64 :
    tm_data_per_packet calibration_spectra 64 = 59 := by
  have hq : tm_packet_space calibration_spectra 64 /
      tm_variable calibration_spectra 64 = (32310 : ℚ) / 544 := by
    norm_num [tm_packet_space, tm_fixed, tm_variable, calibration_spectra,
      PACKET_DEF_data]
  have hf : ⌊(32310 : ℚ) / 544⌋ = 59 := by
    rw [Int.floor_eq_iff] <;> norm_num
  rw [tm_data_per_packet, pyDivmod, hq, hf]
  norm_num

theorem num_data_56_25 : is_integer (tm_num_data 56.25) :=
  is_integer_of_eq 1536 (by norm_num [tm_num_data])

/-! ## Claims -/

/-- C1: for every fixed, variable and capacity with `capacity > fixed` and
`variable > 0`, the divmod step of the estimator (`tmrates.py` line 23,
embedded as `pyDivmod`) satisfies
`records_per_packet * variable + remainder = capacity - fixed` and
`0 ≤ remainder < variable`, with `records_per_packet` being the floor of
`(capacity - fixed) / variable`. -/
theorem packing_identity (fixed variable_bits capacity : ℚ)
    (hcap : fixed < capacity) (hv : 0 < variable_bits) :
    (pyDivmod (capacity - fixed) variable_bits).1 * variable_bits
        + (pyDivmod (capacity - fixed) variable_bits).2 = capacity - fixed ∧
    0 ≤ (pyDivmod (capacity - fixed) variable_bits).2 ∧
    (pyDivmod (capacity - fixed) variable_bits).2 < variable_bits ∧
    (pyDivmod (capacity - fixed) variable_bits).1
        = ((⌊(capacity - fixed) / variable_bits⌋ : ℤ) : ℚ) :=
  ⟨pyDivmod_add _ _, pyDivmod_snd_nonneg _ _ hv, pyDivmod_snd_lt _ _ hv, rfl⟩

/-- C1 witness: the identity instantiated at the light-curve figures
`fixed = 288`, `variable = 56`, `capacity = 32768`. -/
theorem packing_identity_witness :
    (288 : ℚ) < 32768 ∧ (0 : ℚ) < 56 ∧
    ((pyDivmod ((32768 : ℚ) - 288) 56).1 * 56
        + (pyDivmod ((32768 : ℚ) - 288) 56).2 = (32768 : ℚ) - 288 ∧
      0 ≤ (pyDivmod ((32768 : ℚ) - 288) 56).2 ∧
      (pyDivmod ((32768 : ℚ) - 288) 56).2 < 56 ∧
      (pyDivmod ((32768 : ℚ) - 288) 56).1
        = ((⌊((32768 : ℚ) - 288) / 56⌋ : ℤ) : ℚ)) :=
  ⟨by norm_num, by norm_num, packing_identity 288 56 32768 (by norm_num) (by norm_num)⟩

/-- C2: every call of `calculate_tm_rate` that returns a total satisfies
`total = packets_per_day * (fixed + records_per_packet * variable)` and
`packets_per_day * records_per_packet = 86400 / integration_period`
exactly (the division is rational-valued and never rounded up). -/
theorem rate_identity (product : ℚ → ℚ → ℚ × ℚ) (e t total : ℚ)
    (h : calculate_tm_rate product e t = Except.ok total) :
    total = tm_num_packets product e t *
        (tm_fixed product e +
          tm_data_per_packet product e * tm_variable product e) ∧
    tm_num_packets product e t * tm_data_per_packet product e = 86400 / t := by
  unfold calculate_tm_rate at h
  split_ifs at h with h1 h2 h3 h4 <;> simp at h
  exact ⟨by rw [← h, tm_total],
    by rw [tm_num_packets, div_mul_cancel₀ _ h4]; norm_num [tm_num_data]⟩

/-- C2 witness: the light-curve product with 5 energies at a 4 s cadence
succeeds, and its total obeys both identities. -/
theorem rate_identity_witness :
    tm_total light_curve 5 4 = tm_num_packets light_curve 5 4 *
        (tm_fixed light_curve 5 +
          tm_data_per_packet light_curve 5 * tm_variable light_curve 5) ∧
    tm_num_packets light_curve 5 4 * tm_data_per_packet light_curve 5
        = 86400 / 4 :=
  rate_identity light_curve 5 4 (tm_total light_curve 5 4)
    (calculate_tm_rate_ok light_curve 5 4 (by norm_num) num_data_4
      (by rw [tm_variable_light_curve_5]; norm_num)
      (by rw [tm_data_per_packet_light_curve_5]; norm_num))

/-- C3: the estimator fails with the non-divisible-cadence condition exactly
when the integration period does not evenly divide 86,400 s: any
non-divisible cadence yields `ValueError` immediately (so no partial result
exists, the call returns only the error), and for non-degenerate sizes a
call succeeds iff the cadence divides the day; concretely light curves at
5 s succeed and at 7 s fail with the cadence condition. -/
theorem cadence_divisibility :
    (∀ (product : ℚ → ℚ → ℚ × ℚ) (e t : ℚ), ¬ is_integer (tm_num_data t) →
      calculate_tm_rate product e t
        = Except.error TmError.nonDivisibleCadence) ∧
    (∀ (product : ℚ → ℚ → ℚ × ℚ) (e t : ℚ), t ≠ 0 →
      tm_variable product e ≠ 0 → tm_data_per_packet product e ≠ 0 →
      ((calculate_tm_rate product e t).isOk = true ↔
        is_integer (tm_num_data t))) ∧
    (calculate_tm_rate light_curve 5 5).isOk = true ∧
    calculate_tm_rate light_curve 5 7 = Except.error TmError.nonDivisibleCadence := by
  refine ⟨fun product e t h => calculate_tm_rate_cadence_error product e t h,
    fun product e t ht h2 h3 => ⟨fun hok => ?_, fun hi => ?_⟩, ?_,
    calculate_tm_rate_cadence_error light_curve 5 7 num_data_7⟩
  · by_contra hni
    rw [calculate_tm_rate_cadence_error product e t hni] at hok
    exact Bool.noConfusion hok
  · rw [calculate_tm_rate_ok product e t ht hi h2 h3]
    rfl
  · rw [calculate_tm_rate_ok light_curve 5 5 (by norm_num) num_data_5
      (by rw [tm_variable_light_curve_5]; norm_num)
      (by rw [tm_data_per_packet_light_curve_5]; norm_num)]
    rfl

/-- C3 witness: the success criterion instantiated for light curves with 5
energies at a 4 s cadence. -/
theorem cadence_divisibility_witness :
    (calculate_tm_rate light_curve 5 4).isOk = true ↔
      is_integer (tm_num_data 4) :=
  cadence_divisibility.2.1 light_curve 5 4 (by norm_num)
    (by rw [tm_variable_light_curve_5]; norm_num)
    (by rw [tm_data_per_packet_light_curve_5]; norm_num)

/-- C10: the divisibility guard tests the quotient `86400 / t`, not the
period itself, so non-integer periods whose quotient is integral are
accepted: for positive `t` the call raises the non-divisible-cadence
condition exactly when `86400 / t` is not an integer, and the driver's own
calibration-spectra cadence of 56.25 s (quotient 1536) passes the check and
the whole estimation succeeds. -/
theorem cadence_fractional_period :
    (∀ (product : ℚ → ℚ → ℚ × ℚ) (e t : ℚ), 0 < t →
      (calculate_tm_rate product e t = Except.error TmError.nonDivisibleCadence ↔
        ¬ ∃ n : ℤ, (86400 : ℚ) / t = (n : ℚ))) ∧
    (86400 : ℚ) / (56.25 : ℚ) = 1536 ∧
    (calculate_tm_rate calibration_spectra 64 56.25).isOk = true := by
  refine ⟨fun product e t ht => ?_, by norm_num, ?_⟩
  · have hnd : tm_num_data t = 86400 / t := by norm_num [tm_num_data]
    constructor
    · intro herr hex
      have hi : is_integer (tm_num_data t) :=
        (is_integer_iff _).mpr (by rw [hnd]; exact hex)
      unfold calculate_tm_rate at herr
      rw [if_neg ht.ne', if_neg (not_not_intro hi)] at herr
      split_ifs at herr <;> simp at herr
    · intro hex
      apply calculate_tm_rate_cadence_error
      intro hi
      exact hex (by rw [← hnd]; exact (is_integer_iff _).mp hi)
  · rw [calculate_tm_rate_ok calibration_spectra 64 56.25 (by norm_num)
      num_data_56_25
      (by rw [tm_variable_calibration_64]; norm_num)
      (by rw [tm_data_per_packet_calibration_64]; norm_num)]
    rfl

/-- C10 witness: the characterisation instantiated at the 7 s cadence for
the calibration-spectra product. -/
theorem cadence_fractional_period_witness :
    calculate_tm_rate calibration_spectra 64 7
        = Except.error TmError.nonDivisibleCadence ↔
      ¬ ∃ n : ℤ, (86400 : ℚ) / 7 = (n : ℚ) :=
  cadence_fractional_period.1 calibration_spectra 64 7 (by norm_num)

/-- C4 counterexample: a synthetic product whose variable record size is
negative (`-8` bits) is not rejected: the estimation call at a 4 s cadence
succeeds and returns the strictly negative total `-176968800 / 1021`, so
the estimator neither fails immediately on a non-positive record size nor
avoids negative rates. -/
theorem degenerate_negative_variable_not_rejected :
    calculate_tm_rate (fun _ _ => ((100 : ℚ), (-8 : ℚ))) 0 4
        = Except.ok (-176968800 / 1021) ∧ (-176968800 / 1021 : ℚ) < 0 := by
  have hv : tm_variable (fun _ _ => ((100 : ℚ), (-8 : ℚ))) 0 = -8 := rfl
  have hdpp : tm_data_per_packet (fun _ _ => ((100 : ℚ), (-8 : ℚ))) 0 = -4084 := by
    have hq : tm_packet_space (fun _ _ => ((100 : ℚ), (-8 : ℚ))) 0 /
        tm_variable (fun _ _ => ((100 : ℚ), (-8 : ℚ))) 0 = (32668 : ℚ) / (-8) := by
      norm_num [tm_packet_space, tm_fixed, tm_variable, PACKET_DEF_data]
    have hf : ⌊(32668 : ℚ) / (-8)⌋ = -4084 := by
      rw [Int.floor_eq_iff] <;> norm_num
    rw [tm_data_per_packet, pyDivmod, hq, hf]
    norm_num
  refine ⟨?_, by norm_num⟩
  rw [calculate_tm_rate_ok _ _ _ (by norm_num) num_data_4
    (by rw [hv]; norm_num) (by rw [hdpp]; norm_num)]
  congr 1
  rw [tm_total, tm_num_packets, hdpp, hv]
  norm_num [tm_num_data, tm_fixed, PACKET_DEF_data]

/-- C4 (amended): the estimator has no explicit degenerate-record-size
condition.  A zero variable size fails, but through the `ZeroDivisionError`
of the `divmod` itself; a positive variable size exceeding the available
space (zero records per packet) fails through the `ZeroDivisionError` of
the packets division; and a negative variable size (with positive available
space and a valid cadence) does not fail at all: the call succeeds and
returns a strictly negative rate. -/
theorem degenerate_record_size_behaviour :
    (∀ (product : ℚ → ℚ → ℚ × ℚ) (e t : ℚ), t ≠ 0 →
      is_integer (tm_num_data t) → tm_variable product e = 0 →
      calculate_tm_rate product e t = Except.error TmError.zeroDivision) ∧
    (∀ (product : ℚ → ℚ → ℚ × ℚ) (e t : ℚ), t ≠ 0 →
      is_integer (tm_num_data t) → tm_variable product e ≠ 0 →
      tm_data_per_packet product e = 0 →
      calculate_tm_rate product e t = Except.error TmError.zeroDivision) ∧
    (∀ (product : ℚ → ℚ → ℚ × ℚ) (e t : ℚ), 0 < t →
      is_integer (tm_num_data t) → tm_variable product e < 0 →
      0 < tm_packet_space product e →
      calculate_tm_rate product e t = Except.ok (tm_total product e t) ∧
        tm_total product e t < 0) := by
  refine ⟨calculate_tm_rate_zero_variable, calculate_tm_rate_zero_dpp,
    fun product e t ht hi hv hps => ?_⟩
  have hdpp : tm_data_per_packet product e < 0 :=
    pyDivmod_fst_neg (div_neg_of_pos_of_neg hps hv)
  refine ⟨calculate_tm_rate_ok product e t ht.ne' hi hv.ne hdpp.ne, ?_⟩
  have hnd : 0 < tm_num_data t := by rw [tm_num_data]; positivity
  have hnp : tm_num_packets product e t < 0 := div_neg_of_pos_of_neg hnd hdpp
  have hrem : tm_rem product e ≤ 0 := pyDivmod_snd_nonpos _ _ hv
  have key : tm_data_per_packet product e * tm_variable product e
      + tm_rem product e = tm_packet_space product e := pyDivmod_add _ _
  have hps_def : tm_packet_space product e
      = PACKET_DEF_data - tm_fixed product e := rfl
  have hfv : tm_fixed product e +
      tm_data_per_packet product e * tm_variable product e
      = PACKET_DEF_data - tm_rem product e := by
    rw [hps_def] at key
    linarith
  rw [tm_total, hfv]
  apply mul_neg_of_neg_of_pos hnp
  have hpd : (0 : ℚ) < PACKET_DEF_data := by rw [PACKET_DEF_data]; norm_num
  linarith

/-- C4 witness: the amended behaviour instantiated at the synthetic product
with variable size `-8` bits, fixed size 100 bits, 4 s cadence. -/
theorem degenerate_record_size_behaviour_witness :
    calculate_tm_rate (fun _ _ => ((100 : ℚ), (-8 : ℚ))) 0 4
        = Except.ok (tm_total (fun _ _ => ((100 : ℚ), (-8 : ℚ))) 0 4) ∧
      tm_total (fun _ _ => ((100 : ℚ), (-8 : ℚ))) 0 4 < 0 :=
  degenerate_record_size_behaviour.2.2 (fun _ _ => ((100 : ℚ), (-8 : ℚ))) 0 4
    (by norm_num) num_data_4 (by norm_num [tm_variable])
    (by norm_num [tm_packet_space, tm_fixed, PACKET_DEF_data])

/-- C5 counterexample: a synthetic product whose fixed overhead is 32,776
bits — above the 32,768-bit maximum payload — is not rejected: the
estimation call at a 4 s cadence succeeds (the negative packet space flows
through the floor division, giving `-1` record per packet), so the
estimator does not fail immediately on an overflowing fixed overhead. -/
theorem fixed_overflow_not_rejected :
    (calculate_tm_rate (fun _ _ => ((32776 : ℚ), (8 : ℚ))) 0 4).isOk = true := by
  have hdpp : tm_data_per_packet (fun _ _ => ((32776 : ℚ), (8 : ℚ))) 0 = -1 := by
    have hq : tm_packet_space (fun _ _ => ((32776 : ℚ), (8 : ℚ))) 0 /
        tm_variable (fun _ _ => ((32776 : ℚ), (8 : ℚ))) 0
        = ((-1 : ℤ) : ℚ) := by
      norm_num [tm_packet_space, tm_fixed, tm_variable, PACKET_DEF_data]
    rw [tm_data_per_packet, pyDivmod, hq, Int.floor_intCast]
    norm_num
  rw [calculate_tm_rate_ok _ _ _ (by norm_num) num_data_4
    (by norm_num [tm_variable]) (by rw [hdpp]; norm_num)]
  rfl

/-- C5 (amended): the estimator never checks the available payload space.
With a valid cadence and positive variable size, a fixed overhead exactly
equal to the maximum payload fails only through the `ZeroDivisionError` of
the packets division (zero records fit), and a fixed overhead strictly
above the maximum payload does not fail at all: the computation proceeds
with the negative available space and returns a total. -/
theorem fixed_overflow_behaviour :
    (∀ (product : ℚ → ℚ → ℚ × ℚ) (e t : ℚ), t ≠ 0 →
      is_integer (tm_num_data t) → tm_variable product e ≠ 0 →
      tm_fixed product e = PACKET_DEF_data →
      calculate_tm_rate product e t = Except.error TmError.zeroDivision) ∧
    (∀ (product : ℚ → ℚ → ℚ × ℚ) (e t : ℚ), t ≠ 0 →
      is_integer (tm_num_data t) → 0 < tm_variable product e →
      PACKET_DEF_data < tm_fixed product e →
      calculate_tm_rate product e t = Except.ok (tm_total product e t)) := by
  constructor
  · intro product e t ht hi hv hf
    apply calculate_tm_rate_zero_dpp product e t ht hi hv
    have hps : tm_packet_space product e = 0 := by
      rw [tm_packet_space, hf]; ring
    rw [tm_data_per_packet, hps, pyDivmod]
    simp
  · intro product e t ht hi hv hf
    apply calculate_tm_rate_ok product e t ht hi hv.ne'
    have hps : tm_packet_space product e < 0 := by
      rw [tm_packet_space]; linarith
    exact (pyDivmod_fst_neg (div_neg_of_neg_of_pos hps hv)).ne

/-- C5 witness: the amended behaviour instantiated at a synthetic product
whose fixed overhead equals the 32,768-bit payload, 4 s cadence. -/
theorem fixed_overflow_behaviour_witness :
    calculate_tm_rate (fun _ _ => ((32768 : ℚ), (8 : ℚ))) 0 4
        = Except.error TmError.zeroDivision :=
  fixed_overflow_behaviour.1 (fun _ _ => ((32768 : ℚ), (8 : ℚ))) 0 4
    (by norm_num) num_data_4 (by norm_num [tm_variable])
    (by norm_num [tm_fixed, PACKET_DEF_data])

/-- C6: for every evaluable product in the catalog and all non-negative
integer structural parameters, both returned sizes are non-negative
integers (the float-typed terms of `background` and `variance` are
integer-valued); the three defective bulk formulas (`xray_level1`,
`xray_level2`, `xray_level3`) and `aspect` never return a pair at all, so
no returned value of theirs violates the invariant.  Determinism is
definitional: each operation is a pure function of its arguments. -/
theorem catalog_sizes_nonneg_integers :
    (∀ e s : ℕ, ∃ f v : ℕ, light_curve e s = ((f : ℚ), (v : ℚ))) ∧
    (∀ e s : ℕ, ∃ f v : ℕ, background e s = ((f : ℚ), (v : ℚ))) ∧
    (∀ e s : ℕ, ∃ f v : ℕ, variance e s = ((f : ℚ), (v : ℚ))) ∧
    (∀ e s : ℕ, ∃ f v : ℕ, spectra e s = ((f : ℚ), (v : ℚ))) ∧
    (∀ e s : ℕ, ∃ f v : ℕ, flare_flag_location e s = ((f : ℚ), (v : ℚ))) ∧
    (∀ (x : ℚ) (s : ℕ), ∃ f v : ℕ, flarelist_tm_mgmt x s = ((f : ℚ), (v : ℚ))) ∧
    (∀ e s : ℕ, ∃ f v : ℕ, calibration_spectra e s = ((f : ℚ), (v : ℚ))) ∧
    (∀ s : ℕ, ∃ f v : ℕ, xray_level0 s = ((f : ℚ), (v : ℚ))) ∧
    (∀ s e : ℕ, ∃ f v : ℕ, spectrogram s e = ((f : ℚ), (v : ℚ))) ∧
    (∀ p e d : ℚ, xray_level1 p e d = none ∧ xray_level2 p e d = none ∧
      xray_level3 p e d = none) ∧
    (∀ s : ℚ, aspect s = none) := by
  refine ⟨fun e s => ⟨208 + 16*e, 8*e*s + 16*s, ?_⟩,
    fun e s => ⟨144 + 16*e, 8*e*s + 8*s, ?_⟩,
    fun e s => ⟨184, 8*s, ?_⟩,
    fun e s => ⟨120, 280*s, ?_⟩,
    fun e s => ⟨88, 24*s, ?_⟩,
    fun x s => ⟨88, 128*s, ?_⟩,
    fun e s => ⟨458, 32*s + 8*e*s, ?_⟩,
    fun s => ⟨224, 32*s, ?_⟩,
    fun s e => ⟨104, 32*s + 8*s*e, ?_⟩,
    fun p e d => ⟨rfl, rfl, rfl⟩,
    fun s => rfl⟩ <;>
  · simp only [light_curve, background, variance, spectra,
      flare_flag_location, flarelist_tm_mgmt, calibration_spectra,
      xray_level0, spectrogram, Prod.mk.injEq]
    constructor <;> (push_cast; ring)

/-- C7: evaluating the defective bulk-science size queries at a concrete
parameter set: none of them produces a `(fixed, variable)` pair —
`xray_level1` raises `NameError` (undefined `num_pixel`, `num_energies`),
and `xray_level3` and `aspect` are Python syntax errors (missing `+`
between field terms), so sizing is not exception-free pure arithmetic. -/
theorem xray_defective_formulas_never_return :
    xray_level1 1 1 1 = none ∧ xray_level3 1 1 1 = none ∧ aspect 1 = none :=
  ⟨rfl, rfl, rfl⟩

/-- C8: the Level 2 x-ray size query is a pure alias of the Level 1 query:
for every parameter triple it forwards the call unchanged and produces
exactly the same outcome (`bulk_science.py` line 173). -/
theorem xray_level2_alias :
    ∀ p e d : ℚ, xray_level2 p e d = xray_level1 p e d :=
  fun _ _ _ => rfl

/-- C9: for every evaluable product, the variable bits-per-record are
monotone non-decreasing in each structural parameter the formula depends
on: growing a sample count or energy count (with the other parameters
fixed, all non-negative) never decreases the variable size. -/
theorem catalog_variable_monotone :
    (∀ e1 e2 s : ℕ, e1 ≤ e2 → (light_curve e1 s).2 ≤ (light_curve e2 s).2) ∧
    (∀ e s1 s2 : ℕ, s1 ≤ s2 → (light_curve e s1).2 ≤ (light_curve e s2).2) ∧
    (∀ e1 e2 s : ℕ, e1 ≤ e2 → (background e1 s).2 ≤ (background e2 s).2) ∧
    (∀ e s1 s2 : ℕ, s1 ≤ s2 → (background e s1).2 ≤ (background e s2).2) ∧
    (∀ e s1 s2 : ℕ, s1 ≤ s2 → (variance e s1).2 ≤ (variance e s2).2) ∧
    (∀ e s1 s2 : ℕ, s1 ≤ s2 → (spectra e s1).2 ≤ (spectra e s2).2) ∧
    (∀ e s1 s2 : ℕ, s1 ≤ s2 →
      (flare_flag_location e s1).2 ≤ (flare_flag_location e s2).2) ∧
    (∀ (x : ℚ) (s1 s2 : ℕ), s1 ≤ s2 →
      (flarelist_tm_mgmt x s1).2 ≤ (flarelist_tm_mgmt x s2).2) ∧
    (∀ e1 e2 s : ℕ, e1 ≤ e2 →
      (calibration_spectra e1 s).2 ≤ (calibration_spectra e2 s).2) ∧
    (∀ e s1 s2 : ℕ, s1 ≤ s2 →
      (calibration_spectra e s1).2 ≤ (calibration_spectra e s2).2) ∧
    (∀ s1 s2 : ℕ, s1 ≤ s2 → (xray_level0 s1).2 ≤ (xray_level0 s2).2) ∧
    (∀ s1 s2 e : ℕ, s1 ≤ s2 → (spectrogram s1 e).2 ≤ (spectrogram s2 e).2) ∧
    (∀ s e1 e2 : ℕ, e1 ≤ e2 → (spectrogram s e1).2 ≤ (spectrogram s e2).2) := by
  refine ⟨fun e1 e2 s h => ?_, fun e s1 s2 h => ?_, fun e1 e2 s h => ?_,
    fun e s1 s2 h => ?_, fun e s1 s2 h => ?_, fun e s1 s2 h => ?_,
    fun e s1 s2 h => ?_, fun x s1 s2 h => ?_, fun e1 e2 s h => ?_,
    fun e s1 s2 h => ?_, fun s1 s2 h => ?_, fun s1 s2 e h => ?_,
    fun s e1 e2 h => ?_⟩ <;>
  · have hc := (Nat.cast_le (α := ℚ)).mpr h
    simp only [light_curve, background, variance, spectra,
      flare_flag_location, flarelist_tm_mgmt, calibration_spectra,
      xray_level0, spectrogram]
    gcongr

/-- C9 witness: light-curve variable size at 1 vs 2 energies, 3 samples. -/
theorem catalog_variable_monotone_witness :
    (light_curve ((1 : ℕ) : ℚ) ((3 : ℕ) : ℚ)).2
      ≤ (light_curve ((2 : ℕ) : ℚ) ((3 : ℕ) : ℚ)).2 :=
  catalog_variable_monotone.1 1 2 3 (by norm_num)
